import Mathlib

/-!
Shallow embedding of the IRT core of `catsim` (module `catsim/irt.py`):
the three-parameter logistic model `tpm`, item information `inf`, test
information `test_info`, the standard error of estimation `see`, the
log-likelihood `logLik`, and the item-bank helpers `normalize_item_bank`
and `validate_item_bank`.

Conventions of the embedding:
* Fallible Python code is modelled with `Except PyError`; each Python
  exception type becomes a `PyError` constructor carrying its message.
* The purely structural functions (`validate_item_bank`,
  `normalize_item_bank`) are embedded over `ℚ` so that they stay
  computable and decidable; the analytic functions (`tpm`, `inf`,
  `test_info`, `see`, `logLik`) are embedded over `ℝ`, where `math.exp`,
  `math.log` and `math.sqrt` become `Real.exp`, `Real.log`, `Real.sqrt`.
* `numpy` arrays are embedded as `List (List ℚ)` / `List (List ℝ)`
  (2-D) or via the `NpArray` type where the 1-D/2-D distinction matters
  (`numpy.append` dimension checking in `normalize_item_bank`).
* A function that prints returns the printed strings in its `.ok` value.
-/

namespace catsim

/-- The Python exception types raised (or mis-raised) by `catsim/irt.py`,
each carrying its message string. -/
inductive PyError where
  | valueError (msg : String)
  | zeroDivisionError (msg : String)
  | overflowError (msg : String)
  | attributeError (msg : String)
  | indexError (msg : String)
deriving DecidableEq, Repr

/-- A Python object passed to `validate_item_bank`: either a 2-D
`numpy.ndarray` of rationals, or any other object (`type(items) is not
numpy.ndarray`), abstracted by a description string. -/
inductive PyObj where
  | ndarray (rows : List (List ℚ))
  | other (descr : String)
deriving DecidableEq, Repr

/-- Message of the `ValueError` raised by `validate_item_bank` on a
non-ndarray input (source line 221; quote characters of the Python
`repr` are dropped). -/
def typeErrMsg : String := "Item matrix is not of type numpy.ndarray"

/-- Warning printed when the matrix has more than 3 columns (source
line 227; the apostrophe of the original text is expanded). -/
def extraColumnsMsg : String :=
  "\nItem matrix has more than 3 columns. catsim tends to add additional columns to the matriz during the simulation, so it is not a good idea to keep them."

/-- Error text accumulated when the matrix has a single column (source line 231). -/
def missingTwoColsMsg : String :=
  "\nItem matrix has no discrimination or pseudo-guessing parameter columns"

/-- Error text accumulated when the matrix has two columns (source line 233). -/
def missingOneColMsg : String :=
  "\nItem matrix has no pseudo-guessing parameter column"

/-- Error text for the discrimination check (source line 236). -/
def discrMsg : String := "\nThere are items with discrimination < 0"

/-- Error text for the pseudo-guessing lower-bound check (source line 238). -/
def guessLowMsg : String := "\nThere are items with pseudo-guessing < 0"

/-- Error text for the pseudo-guessing upper-bound check (source line 240). -/
def guessHighMsg : String := "\nThere are items with pseudo-guessing > 1"

/-- Column `j` of a 2-D matrix, `items[:, j]` (rows are 3 long wherever
this is reached, so the default value of `getD` is never read). -/
def column (rows : List (List ℚ)) (j : Nat) : List ℚ :=
  rows.map (fun r => r.getD j 0)

/-- The `err` string accumulated by `validate_item_bank` on a 3-column
matrix (source lines 235-240).  Note that, exactly as in the source, all
three conditions read column index 2: `any(items[:, 2] < 0)` guards the
discrimination message, `any(items[:, 2] < 0)` again guards the
pseudo-guessing lower bound, and `any(items[:, 2] > 1)` the upper
bound.  Column 0 (discrimination) is never inspected. -/
def validationErr (rows : List (List ℚ)) : String :=
  let err := ""
  let err := if (column rows 2).any (fun x => decide (x < 0)) then err ++ discrMsg else err
  let err := if (column rows 2).any (fun x => decide (x < 0)) then err ++ guessLowMsg else err
  if (column rows 2).any (fun x => decide (1 < x)) then err ++ guessHighMsg else err

/-- `validate_item_bank(items, raise_err)` (source lines 207-245).
The `.ok` value lists the strings printed to standard output; the
`.error` value is the raised exception.  The type check happens first
and raises unconditionally; afterwards `err` is accumulated according
to the column count, raised as a `ValueError` when non-empty and
`raise_err` is true, and printed otherwise. -/
def validate_item_bank : PyObj → Bool → Except PyError (List String)
  | .other _, _ => .error (.valueError typeErrMsg)
  | .ndarray rows, raise_err =>
    let k := (rows.headD []).length
    let warn : List String := if 3 < k then [extraColumnsMsg] else []
    let err : String :=
      if 3 < k then ""
      else if k < 3 then
        if k = 1 then missingTwoColsMsg
        else if k = 2 then missingOneColMsg
        else ""
      else validationErr rows
    if 0 < err.length ∧ raise_err = true then .error (.valueError err)
    else .ok (warn ++ [err])

/-- A `numpy` array as seen by `normalize_item_bank`: either 1-D or 2-D.
The distinction matters because `numpy.append(..., axis=1)` refuses
operands of different dimensionality. -/
inductive NpArray where
  | oneD (data : List ℚ)
  | twoD (rows : List (List ℚ))
deriving DecidableEq, Repr

/-- `array.shape[0]`. -/
def NpArray.shape0 : NpArray → Nat
  | .oneD data => data.length
  | .twoD rows => rows.length

/-- `array.shape[1]`; raises `IndexError` on a 1-D array, whose shape
tuple has a single entry. -/
def NpArray.shape1 : NpArray → Except PyError Nat
  | .oneD _ => .error (.indexError "tuple index out of range")
  | .twoD rows => .ok (rows.headD []).length

/-- `numpy.ones((n))`: a 1-D array of `n` ones (the shape argument
`(n)` is a plain integer, not a pair, so the result is 1-D). -/
def npOnes (n : Nat) : NpArray := .oneD (List.replicate n 1)

/-- `numpy.zeros((n))`: a 1-D array of `n` zeros. -/
def npZeros (n : Nat) : NpArray := .oneD (List.replicate n 0)

/-- Message of the `ValueError` raised by `numpy.concatenate` (hence
`numpy.append`) when the operands differ in dimensionality. -/
def ndimMsg : String := "all the input arrays must have same number of dimensions"

/-- `numpy.append(arr, values, axis=1)`, which is
`numpy.concatenate((arr, values), axis=1)`: both operands must have the
same number of dimensions (else `ValueError`), axis 1 must exist, and
the first-axis lengths must agree; rows are then concatenated. -/
def npAppendAxis1 : NpArray → NpArray → Except PyError NpArray
  | .oneD _, .oneD _ =>
      .error (.indexError "axis 1 is out of bounds for array of dimension 1")
  | .twoD a, .twoD b =>
      if a.length = b.length then .ok (.twoD (List.zipWith (fun r s => r ++ s) a b))
      else .error (.valueError "all the input array dimensions except for the concatenation axis must match exactly")
  | _, _ => .error (.valueError ndimMsg)

/-- `normalize_item_bank(items)` (source lines 184-204): one column is
expanded by `numpy.append(numpy.ones((n)), items, axis=1)`, then (if the
result has two columns) by `numpy.append(items, numpy.zeros((n)), axis=1)`;
three columns pass through.  The `ones`/`zeros` operands are 1-D, so the
appends are performed exactly as `numpy` would perform them, dimension
check included. -/
def normalize_item_bank (items : NpArray) : Except PyError NpArray := do
  let k1 ← items.shape1
  let items1 ← if k1 = 1 then npAppendAxis1 (npOnes items.shape0) items else pure items
  let k2 ← items1.shape1
  if k2 = 2 then npAppendAxis1 items1 (npZeros items1.shape0) else pure items1

/-- `tpm(theta, a, b, c)` (source lines 17-45), idealized over the real
numbers: `c + ((1 - c) / (1 + math.exp(-a * (theta - b))))`.  Over `ℝ`
the exponential never overflows, so the `try`/`except OverflowError`
wrapper of the source is unreachable here; the floating-point overflow
path is modelled separately by `tpmPy` below. -/
noncomputable def tpm (theta a b c : ℝ) : ℝ :=
  c + ((1 - c) / (1 + Real.exp (-a * (theta - b))))

/-- The largest argument for which CPython `math.exp` returns a finite
double: `log(DBL_MAX)` which is about `709.782712893384`; above it,
`math.exp` raises `OverflowError("math range error")`. -/
noncomputable def EXP_MAX : ℝ := 709.782712893384

/-- CPython `math.exp` on doubles, restricted to the overflow behaviour:
an argument above `EXP_MAX` raises `OverflowError("math range error")`,
otherwise the real exponential value is returned.  (Underflow of tiny
results to `0.0` is not modelled; no claim needs it.) -/
noncomputable def mathExp (x : ℝ) : Except PyError ℝ :=
  if EXP_MAX < x then .error (.overflowError "math range error")
  else .ok (Real.exp x)

/-- The exception actually escaping the `except OverflowError as ofe:`
handler of `tpm`.  The handler (source lines 40-45) evaluates
`ofe.strerror`, but `OverflowError` objects have no attribute
`strerror` (it belongs to `OSError`), so Python raises an
`AttributeError` instead of the intended contextual re-raise. -/
def attrErrMsg : String := "OverflowError object has no attribute strerror"

/-- `tpm` with CPython floating-point overflow semantics (source lines
38-45): the body computes `math.exp(-a * (theta - b))`; when that
overflows, the handler attempts `ofe.strerror + ...`, which raises an
`AttributeError` carrying neither the message nor the `(theta, a, b, c)`
tuple. -/
noncomputable def tpmPy (theta a b c : ℝ) : Except PyError ℝ :=
  match mathExp (-a * (theta - b)) with
  | .ok e => .ok (c + ((1 - c) / (1 + e)))
  | .error _ => .error (.attributeError attrErrMsg)

/-- `inf(theta, a, b, c)` (source lines 95-119), the item information
`a^2 * ((P - c)^2 / (1 - c)^2) * (1 - P) / P` with `P = tpm(...)`. -/
noncomputable def inf (theta a b c : ℝ) : ℝ :=
  let ml3 := tpm theta a b c
  a ^ 2 * ((ml3 - c) ^ 2 / (1 - c) ^ 2) * (1 - ml3) / ml3

/-- `test_info(theta, items)` (source lines 62-74):
`sum([inf(theta, item[0], item[1], item[2]) for item in items])`.
Row entries are read with `getD`; a genuine item matrix has 3-entry
rows, so the defaults are never consulted there. -/
noncomputable def test_info (theta : ℝ) (items : List (List ℝ)) : ℝ :=
  (items.map (fun item => inf theta (item.getD 0 0) (item.getD 1 0) (item.getD 2 0))).sum

/-- CPython `math.sqrt`: raises `ValueError("math domain error")` on a
negative argument, returns the real square root otherwise. -/
noncomputable def mathSqrt (x : ℝ) : Except PyError ℝ :=
  if x < 0 then .error (.valueError "math domain error")
  else .ok (Real.sqrt x)

/-- `see(theta, items)` (source lines 48-59):
`1 / math.sqrt(test_info(theta, items))`.  Division by `0.0` raises
`ZeroDivisionError` in Python, so the embedding checks the divisor. -/
noncomputable def see (theta : ℝ) (items : List (List ℝ)) : Except PyError ℝ :=
  (mathSqrt (test_info theta items)).bind (fun s =>
    if s = 0 then .error (.zeroDivisionError "float division by zero")
    else .ok (1 / s))

/-- Message of the `ValueError` raised by `logLik` on a length mismatch
(source lines 146-148). -/
def lenMismatchMsg : String :=
  "Response vector and administered items must have the same number of items"

/-- `logLik(est_theta, response_vector, administered_items)` (source
lines 122-158).  The length check is performed first and short-circuits
with a `ValueError` before any probability or logarithm is computed;
otherwise the loop accumulates
`rv[i] * log(prob_i) + (1 - rv[i]) * log(1 - prob_i)` with
`prob_i = tpm(est_theta, items[i][0], items[i][1], items[i][2])`.
The source applies `math.log` directly to `prob` with no clamping;
`Real.log` is total, so the floating-point `log(0)` failure mode is
analysed separately in the theorems below. -/
noncomputable def logLik (est_theta : ℝ) (response_vector : List ℝ)
    (administered_items : List (List ℝ)) : Except PyError ℝ :=
  if response_vector.length ≠ administered_items.length then
    .error (.valueError lenMismatchMsg)
  else
    .ok (((List.range response_vector.length).map (fun i =>
      let prob := tpm est_theta ((administered_items.getD i []).getD 0 0)
        ((administered_items.getD i []).getD 1 0) ((administered_items.getD i []).getD 2 0)
      response_vector.getD i 0 * Real.log prob +
        (1 - response_vector.getD i 0) * Real.log (1 - prob))).sum)

/-- C1: the claim says `validate_item_bank` reports a discrimination
violation exactly when some row has `a < 0`, without reusing a column
index.  The code reads column 2 for all three checks, so the item
`[-1, 0, 1/2]` (discrimination `-1 < 0`, pseudo-guessing in range)
passes validation with an empty diagnostic even with `raise_err`
enabled, while a negative pseudo-guessing value `[1, 0, -1]` triggers
the discrimination message. -/
theorem claim_C1_code_eval :
    validate_item_bank (.ndarray [[-1, 0, (0 : ℚ)]]) true = .ok [""] ∧
    validationErr [[(1 : ℚ), 0, -1]] = discrMsg ++ guessLowMsg := by
  exact ⟨rfl, rfl⟩

/-- C2: the claim says `normalize_item_bank` expands n×1 and n×2
matrices to n×3 and passes n×3 through.  The code builds the extra
columns with `numpy.ones((n))` / `numpy.zeros((n))`, which are 1-D, so
`numpy.append(..., axis=1)` raises a dimension-mismatch `ValueError` on
both documented examples; only the n×3 pass-through works. -/
theorem claim_C2_code_eval :
    normalize_item_bank (.twoD [[(1 : ℚ)], [2]]) = .error (.valueError ndimMsg) ∧
    normalize_item_bank (.twoD [[(1.2 : ℚ), 0.5]]) = .error (.valueError ndimMsg) ∧
    normalize_item_bank (.twoD [[(1 : ℚ), 2, 0]]) = .ok (.twoD [[1, 2, 0]]) := by
  exact ⟨rfl, rfl, rfl⟩

/-- C6: the claim says an exponential overflow in `tpm` is re-signaled
as a numeric error carrying the `(theta, a, b, c)` tuple.  In the code
the handler evaluates `ofe.strerror`, an attribute `OverflowError` does
not have, so the overflow input `(-1000, 1, 0, 0)` produces an
`AttributeError` carrying no context at all. -/
theorem claim_C6_code_eval :
    tpmPy (-1000) 1 0 0 = .error (.attributeError attrErrMsg) := by
  have h : EXP_MAX < (1000 : ℝ) := by
    rw [EXP_MAX]; norm_num
  simp [tpmPy, mathExp, h]

/-- C10: `validate_item_bank` raises `ValueError` on any input that is
not a `numpy.ndarray`, before and regardless of the `raise_err` flag. -/
theorem claim_C10_type_check (descr : String) (raise_err : Bool) :
    validate_item_bank (.other descr) raise_err = .error (.valueError typeErrMsg) := rfl

/-- C4: `logLik` raises the length-mismatch `ValueError` whenever the
response vector and the administered-items matrix have different
lengths; the guard is the first statement of the function, so the error
is returned before any probability or logarithm enters the result. -/
theorem claim_C4_length_check (est_theta : ℝ) (response_vector : List ℝ)
    (administered_items : List (List ℝ))
    (h : response_vector.length ≠ administered_items.length) :
    logLik est_theta response_vector administered_items =
      .error (.valueError lenMismatchMsg) := by
  simp [logLik, h]

/-- Witness for C4 at the concrete input `logLik 0 [1] []`. -/
theorem claim_C4_witness :
    ([(1 : ℝ)].length ≠ ([] : List (List ℝ)).length) ∧
    logLik 0 [1] [] = .error (.valueError lenMismatchMsg) :=
  ⟨by decide, claim_C4_length_check 0 [1] [] (by decide)⟩

/-- C5: for `a > 0` and `c ∈ [0, 1]`, `tpm` returns
`c + (1 - c) / (1 + exp (-a * (theta - b)))`, and in particular
`tpm 0 1 0 0 = 1/2`. -/
theorem claim_C5_formula (theta a b c : ℝ) (ha : 0 < a) (hc0 : 0 ≤ c) (hc1 : c ≤ 1) :
    tpm theta a b c = c + ((1 - c) / (1 + Real.exp (-a * (theta - b)))) ∧
    tpm 0 1 0 0 = 1 / 2 := by
  refine ⟨rfl, ?_⟩
  norm_num [tpm, Real.exp_zero]

/-- Witness for C5 at `(theta, a, b, c) = (0, 1, 0, 0)`. -/
theorem claim_C5_witness :
    ((0 : ℝ) < 1 ∧ (0 : ℝ) ≤ 0 ∧ (0 : ℝ) ≤ 1) ∧
    (tpm 0 1 0 0 = 0 + ((1 - 0) / (1 + Real.exp (-1 * ((0 : ℝ) - 0)))) ∧
      tpm 0 1 0 0 = 1 / 2) :=
  ⟨by norm_num, claim_C5_formula 0 1 0 0 (by norm_num) le_rfl (by norm_num)⟩

/-- The sum of a mapped list rewritten as a `Finset.range` sum over
positions. -/
theorem sum_map_eq_sum_range {α : Type} (d : α) (f : α → ℝ) (l : List α) :
    (l.map f).sum = ∑ i ∈ Finset.range l.length, f (l.getD i d) := by
  induction l with
  | nil => simp
  | cons a l ih =>
    rw [List.map_cons, List.sum_cons, ih, List.length_cons, Finset.sum_range_succ']
    simp [add_comm]

/-- C7: `test_info` is the sum of `inf` over the rows of the item
matrix, and the test information of an empty item set is `0`. -/
theorem claim_C7_sum (theta : ℝ) (items : List (List ℝ)) :
    test_info theta items =
      ∑ i ∈ Finset.range items.length,
        inf theta ((items.getD i []).getD 0 0) ((items.getD i []).getD 1 0)
          ((items.getD i []).getD 2 0) ∧
    test_info theta ([] : List (List ℝ)) = 0 :=
  ⟨sum_map_eq_sum_range [] _ items, rfl⟩

/-- C3: the claim says `logLik` clamps each probability into
`(ε, 1 - ε)` before taking the logarithm.  In the code the logarithm is
applied to the raw `tpm` value: for every bound `1 / (n + 1)` there is a
`theta` whose probability lies below the bound, and `logLik` still
returns exactly the logarithm of that unclamped probability, so no
clamping interval exists. -/
theorem claim_C3_code_noclamp (n : ℕ) :
    ∃ theta : ℝ, tpm theta 1 0 0 < ((n : ℝ) + 1)⁻¹ ∧
      logLik theta [1] [[1, 0, 0]] = .ok (Real.log (tpm theta 1 0 0)) := by
  set ε : ℝ := ((n : ℝ) + 1)⁻¹ with hε
  have hεpos : 0 < ε := by positivity
  have hεne : ε ≠ 0 := ne_of_gt hεpos
  refine ⟨Real.log ε, ?_, ?_⟩
  · have hexp : Real.exp (-(1 : ℝ) * (Real.log ε - 0)) = ε⁻¹ := by
      rw [show -(1 : ℝ) * (Real.log ε - 0) = -Real.log ε by ring, Real.exp_neg,
        Real.exp_log hεpos]
    have h1 : (0 : ℝ) < 1 + ε⁻¹ := by positivity
    have hmain : (1 : ℝ) / (1 + ε⁻¹) < ε := by
      rw [div_lt_iff₀ h1, mul_add, mul_one, mul_inv_cancel₀ hεne]
      linarith
    calc tpm (Real.log ε) 1 0 0 = 1 / (1 + ε⁻¹) := by rw [tpm, hexp]; norm_num
      _ < ε := hmain
  · simp [logLik, List.range_succ]

/-- C8: `see` returns `1 / sqrt (test_info theta items)` whenever the
test information is positive, and fails whenever it is `≤ 0` (a
`ValueError` from `math.sqrt` for negative values, a
`ZeroDivisionError` for zero); in particular it fails on an empty item
set, whose test information is `0`. -/
theorem claim_C8_see (theta : ℝ) (items : List (List ℝ)) :
    (0 < test_info theta items →
      see theta items = .ok (1 / Real.sqrt (test_info theta items))) ∧
    (test_info theta items ≤ 0 → ∃ e, see theta items = .error e) ∧
    (∃ e, see theta ([] : List (List ℝ)) = .error e) := by
  have hempty : test_info theta ([] : List (List ℝ)) = 0 := rfl
  refine ⟨?_, ?_, ?_⟩
  · intro h
    have h1 : ¬ test_info theta items < 0 := not_lt.2 h.le
    have h2 : Real.sqrt (test_info theta items) ≠ 0 := ne_of_gt (Real.sqrt_pos.2 h)
    simp [see, mathSqrt, h1, h2, Except.bind]
  · intro h
    rcases lt_or_eq_of_le h with hlt | heq
    · exact ⟨.valueError "math domain error", by simp [see, mathSqrt, hlt, Except.bind]⟩
    · exact ⟨.zeroDivisionError "float division by zero",
        by simp [see, mathSqrt, heq, Except.bind, Real.sqrt_zero]⟩
  · exact ⟨.zeroDivisionError "float division by zero",
      by simp [see, mathSqrt, hempty, Except.bind, Real.sqrt_zero]⟩

/-- Witness for C8 at `theta = 0` on the empty item set, whose test
information is `0 ≤ 0`. -/
theorem claim_C8_witness :
    test_info 0 ([] : List (List ℝ)) ≤ 0 ∧
    (∃ e, see 0 ([] : List (List ℝ)) = .error e) :=
  ⟨le_of_eq rfl, (claim_C8_see 0 []).2.1 (le_of_eq rfl)⟩

set_option maxRecDepth 4096 in
/-- C9: on an n×3 matrix containing a row with pseudo-guessing `3/2`,
`validate_item_bank` raises a `ValueError` carrying the accumulated
diagnostic (which is non-empty) when `raise_err` is enabled, and only
prints that diagnostic and returns when it is disabled. -/
theorem claim_C9_flag (rows : List (List ℚ)) (hne : rows ≠ [])
    (h3 : ∀ r ∈ rows, r.length = 3)
    (hc : ∃ r ∈ rows, r.getD 2 0 = 3 / 2) :
    validate_item_bank (.ndarray rows) true = .error (.valueError (validationErr rows)) ∧
    validationErr rows ≠ "" ∧
    validate_item_bank (.ndarray rows) false = .ok [validationErr rows] := by
  obtain ⟨r, rs, rfl⟩ : ∃ r rs, rows = r :: rs := by
    cases rows with
    | nil => exact absurd rfl hne
    | cons r rs => exact ⟨r, rs, rfl⟩
  have hk : ((r :: rs).headD []).length = 3 := h3 r (List.mem_cons_self r rs)
  have hany : (column (r :: rs) 2).any (fun x => decide (1 < x)) = true := by
    obtain ⟨q, hq, hq2⟩ := hc
    refine List.any_eq_true.mpr ⟨q.getD 2 0, List.mem_map_of_mem _ hq, ?_⟩
    rw [hq2]
    norm_num
  have hpos : 0 < (validationErr (r :: rs)).length := by
    rw [validationErr.eq_def, hany]
    rcases Bool.eq_false_or_eq_true
        ((column (r :: rs) 2).any (fun x => decide (x < 0))) with hb | hb <;>
      simp [hb, discrMsg, guessLowMsg, guessHighMsg, String.length_append] <;>
      decide
  have herr : validationErr (r :: rs) ≠ "" := by
    intro h
    rw [h] at hpos
    exact absurd hpos (by decide)
  refine ⟨?_, herr, ?_⟩
  · simp only [validate_item_bank, hk]
    norm_num [hpos]
  · simp only [validate_item_bank, hk]
    norm_num

/-- Witness for C9 on the concrete matrix `[[1, 0, 3/2]]` with both
flag values. -/
theorem claim_C9_witness :
    (([[(1 : ℚ), 0, 3 / 2]] : List (List ℚ)) ≠ [] ∧
      (∀ r ∈ ([[(1 : ℚ), 0, 3 / 2]] : List (List ℚ)), r.length = 3) ∧
      (∃ r ∈ ([[(1 : ℚ), 0, 3 / 2]] : List (List ℚ)), r.getD 2 0 = 3 / 2)) ∧
    (validate_item_bank (.ndarray [[(1 : ℚ), 0, 3 / 2]]) true =
        .error (.valueError (validationErr [[(1 : ℚ), 0, 3 / 2]])) ∧
      validationErr [[(1 : ℚ), 0, 3 / 2]] ≠ "" ∧
      validate_item_bank (.ndarray [[(1 : ℚ), 0, 3 / 2]]) false =
        .ok [validationErr [[(1 : ℚ), 0, 3 / 2]]]) :=
  ⟨⟨by simp, by simp, ⟨[1, 0, 3 / 2], by simp, rfl⟩⟩,
    claim_C9_flag [[1, 0, 3 / 2]] (by simp) (by simp)
      ⟨[1, 0, 3 / 2], by simp, rfl⟩⟩

end catsim
